import Mathlib

/-!
Shallow embedding of the food-ordering backend (`src/api/server.py`).

The document store (MongoDB via motor) is modelled as in-memory lists kept in
insertion (natural) order inside a `StoreState`.  Store primitives are embedded
as follows:

* `find_one {id: x}`        → `List.find?` on the collection
* `insert_one d`            → append to the end of the collection
* `update_one {id: x} $set` → rewrite the first matching document
* `delete_one {id: x}`      → remove the first matching document, report count
* `find().to_list(n)`       → `List.take n` of the collection (natural order)
* `find(f).to_list(n)`      → `List.take n` of the filtered collection
* `sort("created_at", -1)`  → `List.insertionSort` with a non-increasing key
* `count_documents f`       → length of the filtered collection

`datetime` values are modelled as natural numbers (seconds of local time);
`datetime.now().replace(hour=0, minute=0, second=0, microsecond=0)` becomes
truncation to a multiple of 86400, and `timedelta(days=1)` is `+ 86400`.
Monetary amounts (`float` prices and totals, always exact decimals in this
program) are modelled as rationals.

FastAPI's `HTTPBearer()` dependency (with its default `auto_error=True`) is
embedded from its library semantics: a missing or malformed `Authorization`
header is rejected with status 403 before the handler's own token check runs;
`verify_admin_token` then rejects a wrong token with status 401.
-/

/-- An `HTTPException(status_code, detail)` escaping a route handler. -/
structure HTTPError where
  status_code : Nat
  detail : String
deriving DecidableEq, Repr

/-- `ADMIN_TOKEN` from `server.py` line 40. -/
def ADMIN_TOKEN : String := "admin_secret_key_2024"

/-- Split a character sequence at its first space: Python
`s.partition(" ")` keeping the before and after parts. -/
def breakAtSpace : List Char → List Char × List Char
  | [] => ([], [])
  | c :: cs =>
    if c = ' ' then ([], cs)
    else
      let r := breakAtSpace cs
      (c :: r.1, r.2)

/-- Python `authorization.partition(" ")` restricted to the two components
`get_authorization_scheme_param` keeps: the text before the first space and
everything after it. -/
def partitionSpace (s : String) : String × String :=
  let r := breakAtSpace s.data
  (String.mk r.1, String.mk r.2)

/-- Python `scheme.lower()`. -/
def lowerString (s : String) : String :=
  String.mk (s.data.map Char.toLower)

/-- `fastapi.security.HTTPBearer.__call__` with `auto_error=True`: a missing
header, an empty scheme or empty credentials yield 403 "Not authenticated";
a scheme other than `bearer` (case-insensitive) yields 403 "Invalid
authentication credentials"; otherwise the credentials string is passed on. -/
def httpBearerCall (authorization : Option String) : Except HTTPError String :=
  match authorization with
  | none => .error ⟨403, "Not authenticated"⟩
  | some auth =>
    let sc := partitionSpace auth
    if auth = "" ∨ sc.1 = "" ∨ sc.2 = "" then .error ⟨403, "Not authenticated"⟩
    else if lowerString sc.1 ≠ "bearer" then
      .error ⟨403, "Invalid authentication credentials"⟩
    else .ok sc.2

/-- `verify_admin_token` (`server.py` lines 118-121). -/
def verify_admin_token (credentials : String) : Except HTTPError String :=
  if credentials ≠ ADMIN_TOKEN then .error ⟨401, "Invalid admin token"⟩
  else .ok credentials

/-- The full dependency chain guarding admin routes:
`Depends(security)` followed by `verify_admin_token`. -/
def adminGuard (authorization : Option String) : Except HTTPError String :=
  httpBearerCall authorization >>= verify_admin_token

/-- A well-formed admin `Authorization` header value. -/
def goodAuth : Option String := some ("Bearer " ++ ADMIN_TOKEN)

/-- `OrderStatus` enumeration (`server.py` lines 43-47). -/
inductive OrderStatus where
  | PENDING
  | READY
  | DELIVERED
  | CANCELLED
deriving DecidableEq, Repr

/-- `Product` model (`server.py` lines 50-60). -/
structure Product where
  id : String
  name : String
  price : ℚ
  image : String
  category : String
  description : String
  isFavorite : Bool
  is_available : Bool
  created_at : Nat
  updated_at : Nat
deriving DecidableEq, Repr

/-- `ProductCreate` request model (`server.py` lines 62-67). -/
structure ProductCreate where
  name : String
  price : ℚ
  image : String
  category : String
  description : String := ""
deriving DecidableEq, Repr

/-- `ProductUpdate` request model (`server.py` lines 69-75); `none` stands for
a field the caller did not supply (pydantic `exclude_unset`). -/
structure ProductUpdate where
  name : Option String := none
  price : Option ℚ := none
  image : Option String := none
  category : Option String := none
  description : Option String := none
  is_available : Option Bool := none
deriving DecidableEq, Repr

/-- `CartItem` model (`server.py` lines 77-82). -/
structure CartItem where
  product_id : String
  product_name : String
  price : ℚ
  quantity : Nat
  image : String
deriving DecidableEq, Repr

/-- `Order` model (`server.py` lines 84-92). -/
structure Order where
  id : String
  customer_name : String
  phone : String
  cart_items : List CartItem
  total : ℚ
  status : OrderStatus
  created_at : Nat
  updated_at : Nat
deriving DecidableEq, Repr

/-- `OrderCreate` request model (`server.py` lines 94-98). -/
structure OrderCreate where
  customer_name : String
  phone : String
  cart_items : List CartItem
  total : ℚ
deriving DecidableEq, Repr

/-- `GalleryImage` model (`server.py` lines 103-107). -/
structure GalleryImage where
  id : String
  filename : String
  url : String
  uploaded_at : Nat
deriving DecidableEq, Repr

/-- `AdminStats` response model (`server.py` lines 109-115). -/
structure AdminStats where
  total_products : Nat
  total_orders : Nat
  total_sales : ℚ
  pending_orders : Nat
  today_orders : Nat
  today_sales : ℚ
deriving DecidableEq, Repr

/-- The three MongoDB collections, each in natural (insertion) order. -/
structure StoreState where
  products : List Product
  orders : List Order
  gallery : List GalleryImage
deriving DecidableEq, Repr

/-- `update_one` on an id filter: rewrite the first document matching `p`. -/
def updateFirst (p : α → Bool) (f : α → α) : List α → List α
  | [] => []
  | x :: xs => if p x then f x :: xs else x :: updateFirst p f xs

/-- `delete_one` on an id filter: drop the first document matching `p` and
report the `deleted_count`. -/
def deleteFirst (p : α → Bool) : List α → List α × Nat
  | [] => ([], 0)
  | x :: xs =>
    if p x then (xs, 1)
    else
      let r := deleteFirst p xs
      (x :: r.1, r.2)

/-- Mongo `sort("created_at", -1)`: some order of the collection that is
non-increasing in `created_at`. -/
def createdDesc (a b : Order) : Prop := b.created_at ≤ a.created_at

instance : DecidableRel createdDesc := fun a b => Nat.decLe b.created_at a.created_at

instance : IsTotal Order createdDesc := ⟨fun a b => Nat.le_total b.created_at a.created_at⟩

instance : IsTrans Order createdDesc :=
  ⟨fun _ _ _ h h' => Nat.le_trans h' h⟩

/-! ## Product routes -/

/-- `Product(**product.dict())` with generated id and timestamps. -/
def mkProduct (input : ProductCreate) (genId : String) (now : Nat) : Product :=
  { id := genId
    name := input.name
    price := input.price
    image := input.image
    category := input.category
    description := input.description
    isFavorite := false
    is_available := true
    created_at := now
    updated_at := now }

/-- `POST /api/products` (`create_product`, lines 124-129): admin-guarded,
builds a `Product` from the input and inserts it. -/
def create_product (st : StoreState) (product : ProductCreate) (genId : String)
    (now : Nat) (authorization : Option String) :
    Except HTTPError (StoreState × Product) := do
  let _ ← adminGuard authorization
  let product_obj := mkProduct product genId now
  .ok ({ st with products := st.products ++ [product_obj] }, product_obj)

/-- `GET /api/products` (`get_products`, lines 131-134): `find().to_list(1000)`. -/
def get_products (st : StoreState) : List Product :=
  st.products.take 1000

/-- `GET /api/products/category/{category}` (lines 136-139). -/
def get_products_by_category (st : StoreState) (category : String) : List Product :=
  (st.products.filter (fun p => p.category == category)).take 1000

/-- `GET /api/products/{product_id}` (`get_product`, lines 141-146). -/
def get_product (st : StoreState) (product_id : String) : Except HTTPError Product :=
  match st.products.find? (fun p => p.id == product_id) with
  | none => .error ⟨404, "Product not found"⟩
  | some p => .ok p

/-- The `$set` document of `update_product`: the fields present in
`product_update.dict(exclude_unset=True)` plus a fresh `updated_at`. -/
def applyProductUpdate (u : ProductUpdate) (now : Nat) (p : Product) : Product :=
  { p with
    name := u.name.getD p.name
    price := u.price.getD p.price
    image := u.image.getD p.image
    category := u.category.getD p.category
    description := u.description.getD p.description
    is_available := u.is_available.getD p.is_available
    updated_at := now }

/-- `PUT /api/products/{product_id}` (`update_product`, lines 148-159):
admin-guarded; 404 when the id is absent; otherwise `$set`s the supplied
fields plus `updated_at` and returns the re-fetched document.  The impossible
re-fetch miss (a `TypeError` in the Python) is a generic 500. -/
def update_product (st : StoreState) (product_id : String) (product_update : ProductUpdate)
    (now : Nat) (authorization : Option String) :
    Except HTTPError (StoreState × Product) := do
  let _ ← adminGuard authorization
  match st.products.find? (fun p => p.id == product_id) with
  | none => .error ⟨404, "Product not found"⟩
  | some _ =>
    let products' :=
      updateFirst (fun p => p.id == product_id) (applyProductUpdate product_update now)
        st.products
    match products'.find? (fun p => p.id == product_id) with
    | none => .error ⟨500, "Internal Server Error"⟩
    | some updated_product => .ok ({ st with products := products' }, updated_product)

/-- `DELETE /api/products/{product_id}` (`delete_product`, lines 161-166):
admin-guarded; 404 when `deleted_count == 0`. -/
def delete_product (st : StoreState) (product_id : String)
    (authorization : Option String) : Except HTTPError (StoreState × String) := do
  let _ ← adminGuard authorization
  let r := deleteFirst (fun p => p.id == product_id) st.products
  if r.2 = 0 then .error ⟨404, "Product not found"⟩
  else .ok ({ st with products := r.1 }, "Product deleted successfully")

/-- `PUT /api/products/{product_id}/favorite` (`toggle_favorite`, lines
168-179): unauthenticated; 404 when the id is absent; otherwise `$set`s only
`isFavorite` to the negation of the fetched value. -/
def toggle_favorite (st : StoreState) (product_id : String) :
    Except HTTPError (StoreState × Bool) :=
  match st.products.find? (fun p => p.id == product_id) with
  | none => .error ⟨404, "Product not found"⟩
  | some product =>
    let new_favorite_status := !product.isFavorite
    .ok ({ st with
            products := updateFirst (fun p => p.id == product_id)
              (fun p => { p with isFavorite := new_favorite_status }) st.products },
         new_favorite_status)

/-! ## Order routes -/

/-- `Order(**order.dict())` with generated id, default `PENDING` status and
timestamps. -/
def mkOrder (input : OrderCreate) (genId : String) (now : Nat) : Order :=
  { id := genId
    customer_name := input.customer_name
    phone := input.phone
    cart_items := input.cart_items
    total := input.total
    status := OrderStatus.PENDING
    created_at := now
    updated_at := now }

/-- `POST /api/orders` (`create_order`, lines 182-187): unauthenticated,
no validation; inserts the new order and returns it. -/
def create_order (st : StoreState) (order : OrderCreate) (genId : String)
    (now : Nat) : StoreState × Order :=
  let order_obj := mkOrder order genId now
  ({ st with orders := st.orders ++ [order_obj] }, order_obj)

/-- `GET /api/orders` (`get_orders`, lines 189-192):
`find().sort("created_at", -1).to_list(1000)`. -/
def get_orders (st : StoreState) : List Order :=
  (List.insertionSort createdDesc st.orders).take 1000

/-- `GET /api/orders/{order_id}` (`get_order`, lines 194-199). -/
def get_order (st : StoreState) (order_id : String) : Except HTTPError Order :=
  match st.orders.find? (fun o => o.id == order_id) with
  | none => .error ⟨404, "Order not found"⟩
  | some o => .ok o

/-- `PUT /api/orders/{order_id}/status` (`update_order_status`, lines 201-211):
admin-guarded; 404 when the id is absent; otherwise `$set`s `status` and
`updated_at` and reports the new status. -/
def update_order_status (st : StoreState) (order_id : String)
    (status_update : OrderStatus) (now : Nat) (authorization : Option String) :
    Except HTTPError (StoreState × OrderStatus) := do
  let _ ← adminGuard authorization
  match st.orders.find? (fun o => o.id == order_id) with
  | none => .error ⟨404, "Order not found"⟩
  | some _ =>
    .ok ({ st with
            orders := updateFirst (fun o => o.id == order_id)
              (fun o => { o with status := status_update, updated_at := now })
              st.orders },
         status_update)

/-- `GET /api/orders/status/{status}` (`get_orders_by_status`, lines 213-216):
`find({"status": status}).sort("created_at", -1).to_list(1000)`. -/
def get_orders_by_status (st : StoreState) (status : OrderStatus) : List Order :=
  (List.insertionSort createdDesc
    (st.orders.filter (fun o => o.status == status))).take 1000

/-! ## Gallery routes -/

/-- Python `file.filename.split(".")[-1]`. -/
def fileExtension (filename : String) : String :=
  (filename.splitOn ".").getLastD ""

/-- `POST /api/gallery/upload` (`upload_image`, lines 219-238): admin-guarded;
400 unless the content type starts with `image/`; stores the record under a
generated filename `uuid.ext` (the disk write is outside the store model). -/
def upload_image (st : StoreState) (content_type original_filename : String)
    (genUuid genId : String) (now : Nat) (authorization : Option String) :
    Except HTTPError (StoreState × String × String) := do
  let _ ← adminGuard authorization
  if ¬ content_type.startsWith "image/" then
    .error ⟨400, "File must be an image"⟩
  else
    let filename := genUuid ++ "." ++ fileExtension original_filename
    let image_url := "/uploads/" ++ filename
    let gallery_image : GalleryImage :=
      { id := genId, filename := filename, url := image_url, uploaded_at := now }
    .ok ({ st with gallery := st.gallery ++ [gallery_image] }, image_url, filename)

/-- `uploaded_at` non-increasing ordering for the gallery sort. -/
def uploadedDesc (a b : GalleryImage) : Prop := b.uploaded_at ≤ a.uploaded_at

instance : DecidableRel uploadedDesc := fun a b => Nat.decLe b.uploaded_at a.uploaded_at

/-- `GET /api/gallery` (`get_gallery_images`, lines 240-243). -/
def get_gallery_images (st : StoreState) : List GalleryImage :=
  (List.insertionSort uploadedDesc st.gallery).take 1000

/-- `DELETE /api/gallery/{image_id}` (`delete_gallery_image`, lines 245-258):
admin-guarded; 404 when the id is absent; removes the record (the best-effort
file unlink is outside the store model). -/
def delete_gallery_image (st : StoreState) (image_id : String)
    (authorization : Option String) : Except HTTPError (StoreState × String) := do
  let _ ← adminGuard authorization
  match st.gallery.find? (fun i => i.id == image_id) with
  | none => .error ⟨404, "Image not found"⟩
  | some _ =>
    .ok ({ st with gallery := (deleteFirst (fun i => i.id == image_id) st.gallery).1 },
         "Image deleted successfully")

/-! ## Admin stats -/

/-- Seconds in a day; `timedelta(days=1)`. -/
def secondsPerDay : Nat := 86400

/-- `datetime.now().replace(hour=0, minute=0, second=0, microsecond=0)`:
truncate the clock to the start of the current local day. -/
def startOfDay (now : Nat) : Nat := now - now % secondsPerDay

/-- The `{"created_at": {"$gte": today, "$lt": tomorrow}}` filter. -/
def inTodayWindow (today tomorrow : Nat) (o : Order) : Bool :=
  today ≤ o.created_at && o.created_at < tomorrow

/-- `GET /api/admin/stats` (`get_admin_stats`, lines 261-293): admin-guarded;
counts use `count_documents` (exact), the two sales sums re-fetch orders with
`to_list(1000)` (truncated at 1000 documents). -/
def get_admin_stats (st : StoreState) (now : Nat) (authorization : Option String) :
    Except HTTPError AdminStats := do
  let _ ← adminGuard authorization
  let today := startOfDay now
  let tomorrow := today + secondsPerDay
  let total_products := st.products.length
  let total_orders := st.orders.length
  let pending_orders :=
    (st.orders.filter (fun o => o.status == OrderStatus.PENDING)).length
  let today_orders := (st.orders.filter (inTodayWindow today tomorrow)).length
  let all_orders := st.orders.take 1000
  let total_sales := (all_orders.map Order.total).sum
  let today_orders_data := (st.orders.filter (inTodayWindow today tomorrow)).take 1000
  let today_sales := (today_orders_data.map Order.total).sum
  .ok { total_products := total_products
        total_orders := total_orders
        total_sales := total_sales
        pending_orders := pending_orders
        today_orders := today_orders
        today_sales := today_sales }

/-! ## Catalog bootstrap -/

/-- The fixed seed set of `initialize_sample_data` (lines 304-347). -/
def sample_products : List ProductCreate :=
  [ { name := "Маргарита Пицца", price := 450, image := "https://images.unsplash.com/photo-1611915365928-565c527a0590",
      category := "pizza", description := "Классикалык пицца моццарелла жана помидор менен" },
    { name := "Чизбургер", price := 250, image := "https://images.pexels.com/photos/18866153/pexels-photo-18866153.jpeg",
      category := "burger", description := "Сыр, котлет жана жашылча менен" },
    { name := "Капучино", price := 120, image := "https://images.pexels.com/photos/312418/pexels-photo-312418.jpeg",
      category := "coffee", description := "Ысык кофе сүт көбүгү менен" },
    { name := "Шоколад Десерт", price := 180, image := "https://images.pexels.com/photos/2638026/pexels-photo-2638026.jpeg",
      category := "dessert", description := "Шоколадтуу таттуу десерт" },
    { name := "Латте", price := 140, image := "https://images.pexels.com/photos/549222/pexels-photo-549222.jpeg",
      category := "coffee", description := "Кофе сүт жана көбүк менен" },
    { name := "Пепперони Пицца", price := 520, image := "https://images.unsplash.com/photo-1611915365928-565c527a0590",
      category := "pizza", description := "Пепперони жана сыр менен" } ]

/-- `POST /api/initialize-data` (`initialize_sample_data`, lines 296-355):
unauthenticated; `find().to_list(1)` checks existence and short-circuits;
otherwise builds the six seed `Product`s and `insert_many`s them. -/
def initialize_sample_data (st : StoreState) (genId : Nat → String) (now : Nat) :
    StoreState × String :=
  let existing_products := st.products.take 1
  if existing_products ≠ [] then (st, "Sample data already exists")
  else
    let products :=
      (List.range sample_products.length).zip sample_products
        |>.map (fun x => mkProduct x.2 (genId x.1) now)
    ({ st with products := st.products ++ products },
     "Inserted " ++ toString products.length ++ " sample products")

/-! ## Helper lemmas -/

theorem bindGuard_error {β : Type} (e : HTTPError) (f : String → Except HTTPError β) :
    ((Except.error e : Except HTTPError String) >>= f) = .error e := rfl

theorem bindGuard_ok {β : Type} (v : String) (f : String → Except HTTPError β) :
    ((Except.ok v : Except HTTPError String) >>= f) = f v := rfl

theorem adminGuard_goodAuth : adminGuard goodAuth = .ok ADMIN_TOKEN := rfl

/-- Rewriting the first match cannot lose it: when `f` preserves the filter,
`find?` after `updateFirst` returns the rewritten document. -/
theorem find?_updateFirst (p : α → Bool) (f : α → α) (l : List α)
    (hf : ∀ a, p a = true → p (f a) = true) :
    (updateFirst p f l).find? p = (l.find? p).map f := by
  induction l with
  | nil => rfl
  | cons x xs ih =>
    by_cases hx : p x = true
    · rw [updateFirst, if_pos hx, List.find?_cons_of_pos _ (hf x hx),
        List.find?_cons_of_pos _ hx]
      rfl
    · rw [updateFirst, if_neg hx, List.find?_cons_of_neg _ hx,
        List.find?_cons_of_neg _ hx, ih]

/-- C3: `update_order_status` fails with 404 when no order with the id exists;
otherwise, for any member of `OrderStatus` and regardless of the current
status, it sets the order's status to the supplied value and refreshes
`updated_at`. -/
theorem C3_update_order_status (st : StoreState) (oid : String) (s : OrderStatus)
    (now : Nat) :
    (st.orders.find? (fun o => o.id == oid) = none →
      update_order_status st oid s now goodAuth = .error ⟨404, "Order not found"⟩) ∧
    (∀ o, st.orders.find? (fun o => o.id == oid) = some o →
      update_order_status st oid s now goodAuth =
        .ok ({ st with
                orders := updateFirst (fun o => o.id == oid)
                  (fun o => { o with status := s, updated_at := now }) st.orders }, s) ∧
      (updateFirst (fun o => o.id == oid)
          (fun o => { o with status := s, updated_at := now }) st.orders).find?
          (fun o => o.id == oid) = some { o with status := s, updated_at := now }) := by
  have hred : update_order_status st oid s now goodAuth =
      match st.orders.find? (fun o => o.id == oid) with
      | none => .error ⟨404, "Order not found"⟩
      | some _ =>
        .ok ({ st with
                orders := updateFirst (fun o => o.id == oid)
                  (fun o => { o with status := s, updated_at := now }) st.orders }, s) := rfl
  constructor
  · intro h
    rw [hred, h]
  · intro o h
    refine ⟨by rw [hred, h], ?_⟩
    rw [find?_updateFirst (fun o => o.id == oid)
      (fun o => { o with status := s, updated_at := now }) st.orders (fun a ha => ha), h]
    rfl

/-- A concrete order used by witnesses. -/
def sampleOrder : Order :=
  { id := "o1", customer_name := "N", phone := "555", cart_items := [],
    total := 450, status := OrderStatus.PENDING, created_at := 100, updated_at := 100 }

/-- A store holding one pending order. -/
def oneOrderState : StoreState := ⟨[], [sampleOrder], []⟩

/-- C3 witness: on a one-order store the status really is replaced and a
missing id really yields 404. -/
theorem C3_update_order_status_witness :
    update_order_status oneOrderState "o1" OrderStatus.READY 200 goodAuth =
      .ok (⟨[], [{ sampleOrder with status := OrderStatus.READY, updated_at := 200 }], []⟩,
        OrderStatus.READY) ∧
    update_order_status oneOrderState "nope" OrderStatus.READY 200 goodAuth =
      .error ⟨404, "Order not found"⟩ := by
  constructor
  · exact ((C3_update_order_status oneOrderState "o1" OrderStatus.READY 200).2
      sampleOrder rfl).1
  · exact (C3_update_order_status oneOrderState "nope" OrderStatus.READY 200).1 rfl

/-- C4: both order list operations return sequences that are non-increasing in
`created_at` (newest first), for every state of the orders collection. -/
theorem C4_order_lists_sorted (st : StoreState) (status : OrderStatus) :
    List.Pairwise (fun a b : Order => b.created_at ≤ a.created_at) (get_orders st) ∧
    List.Pairwise (fun a b : Order => b.created_at ≤ a.created_at)
      (get_orders_by_status st status) := by
  constructor
  · exact (List.sorted_insertionSort createdDesc st.orders).sublist
      (List.take_sublist 1000 _)
  · exact (List.sorted_insertionSort createdDesc _).sublist (List.take_sublist 1000 _)

/-- A concrete product used by witnesses. -/
def sampleProduct : Product :=
  { id := "p1", name := "Test Pizza", price := 450, image := "x", category := "pizza",
    description := "", isFavorite := false, is_available := true,
    created_at := 5, updated_at := 5 }

/-- A store holding one product. -/
def oneProductState : StoreState := ⟨[sampleProduct], [], []⟩

/-- C5: `update_product` on an absent id fails with 404; on an existing id it
returns the re-fetched document, which keeps the product's `id`, takes exactly
the supplied fields of the partial input, keeps every unsupplied field, and
carries `updated_at = now` (so `updated_at` strictly advanced whenever the
clock moved since the last write). -/
theorem C5_update_product (st : StoreState) (pid : String) (u : ProductUpdate)
    (now : Nat) :
    (st.products.find? (fun p => p.id == pid) = none →
      update_product st pid u now goodAuth = .error ⟨404, "Product not found"⟩) ∧
    (∀ p, st.products.find? (fun p => p.id == pid) = some p →
      update_product st pid u now goodAuth =
        .ok ({ st with
                products := updateFirst (fun q => q.id == pid)
                  (applyProductUpdate u now) st.products },
             applyProductUpdate u now p) ∧
      (applyProductUpdate u now p).id = p.id ∧
      (applyProductUpdate u now p).updated_at = now ∧
      (applyProductUpdate u now p).name = u.name.getD p.name ∧
      (applyProductUpdate u now p).price = u.price.getD p.price ∧
      (applyProductUpdate u now p).image = u.image.getD p.image ∧
      (applyProductUpdate u now p).category = u.category.getD p.category ∧
      (applyProductUpdate u now p).description = u.description.getD p.description ∧
      (applyProductUpdate u now p).is_available = u.is_available.getD p.is_available ∧
      (applyProductUpdate u now p).isFavorite = p.isFavorite ∧
      (applyProductUpdate u now p).created_at = p.created_at ∧
      (p.updated_at < now → p.updated_at < (applyProductUpdate u now p).updated_at)) := by
  have hfind : (updateFirst (fun q => q.id == pid) (applyProductUpdate u now)
      st.products).find? (fun q => q.id == pid) =
      (st.products.find? (fun q => q.id == pid)).map (applyProductUpdate u now) :=
    find?_updateFirst (fun q => q.id == pid) (applyProductUpdate u now) st.products
      (fun a ha => ha)
  constructor
  · intro h
    have hred : update_product st pid u now goodAuth =
        match st.products.find? (fun p => p.id == pid) with
        | none => .error ⟨404, "Product not found"⟩
        | some _ =>
          match (updateFirst (fun q => q.id == pid) (applyProductUpdate u now)
              st.products).find? (fun q => q.id == pid) with
          | none => .error ⟨500, "Internal Server Error"⟩
          | some updated_product =>
            .ok ({ st with
                    products := updateFirst (fun q => q.id == pid)
                      (applyProductUpdate u now) st.products }, updated_product) := rfl
    rw [hred, h]
  · intro p h
    have hred : update_product st pid u now goodAuth =
        match st.products.find? (fun p => p.id == pid) with
        | none => .error ⟨404, "Product not found"⟩
        | some _ =>
          match (updateFirst (fun q => q.id == pid) (applyProductUpdate u now)
              st.products).find? (fun q => q.id == pid) with
          | none => .error ⟨500, "Internal Server Error"⟩
          | some updated_product =>
            .ok ({ st with
                    products := updateFirst (fun q => q.id == pid)
                      (applyProductUpdate u now) st.products }, updated_product) := rfl
    refine ⟨?_, rfl, rfl, rfl, rfl, rfl, rfl, rfl, rfl, rfl, rfl, fun hlt => hlt⟩
    rw [hred, h, hfind, h]
    rfl

/-- C5 witness: on a one-product store, a partial update supplying only the
price changes the price and `updated_at`, keeps everything else, and a missing
id yields 404. -/
theorem C5_update_product_witness :
    update_product oneProductState "p1" { price := some 500 } 9 goodAuth =
      .ok (⟨[{ sampleProduct with price := 500, updated_at := 9 }], [], []⟩,
        { sampleProduct with price := 500, updated_at := 9 }) ∧
    update_product oneProductState "nope" { price := some 500 } 9 goodAuth =
      .error ⟨404, "Product not found"⟩ ∧
    sampleProduct.updated_at < 9 ∧
    sampleProduct.updated_at <
      (applyProductUpdate { price := some 500 } 9 sampleProduct).updated_at := by
  refine ⟨?_, ?_, by decide, ?_⟩
  · exact ((C5_update_product oneProductState "p1" { price := some 500 } 9).2
      sampleProduct rfl).1
  · exact (C5_update_product oneProductState "nope" { price := some 500 } 9).1 rfl
  · exact ((C5_update_product oneProductState "p1" { price := some 500 } 9).2
      sampleProduct rfl).2.2.2.2.2.2.2.2.2.2.2 (by decide)

/-- C10: a product update or a product delete never touches the orders
collection: cart items are snapshotted copies, not live references. -/
theorem C10_orders_unchanged (st : StoreState) (pid : String) (u : ProductUpdate)
    (now : Nat) (authorization : Option String) :
    (∀ st' q, update_product st pid u now authorization = .ok (st', q) →
      st'.orders = st.orders) ∧
    (∀ st' m, delete_product st pid authorization = .ok (st', m) →
      st'.orders = st.orders) := by
  constructor
  · intro st' q h
    unfold update_product at h
    rcases hg : adminGuard authorization with e | v
    · rw [hg, bindGuard_error] at h
      exact Except.noConfusion h
    · rw [hg, bindGuard_ok] at h
      rcases h1 : st.products.find? (fun p => p.id == pid) with _ | p
      · simp only [h1] at h
        exact Except.noConfusion h
      · simp only [h1] at h
        rcases h2 : (updateFirst (fun p => p.id == pid) (applyProductUpdate u now)
            st.products).find? (fun p => p.id == pid) with _ | q'
        · simp only [h2] at h
          exact Except.noConfusion h
        · simp only [h2, Except.ok.injEq, Prod.mk.injEq] at h
          rw [← h.1]
  · intro st' m h
    unfold delete_product at h
    rcases hg : adminGuard authorization with e | v
    · rw [hg, bindGuard_error] at h
      exact Except.noConfusion h
    · rw [hg, bindGuard_ok] at h
      by_cases hc : (deleteFirst (fun p => p.id == pid) st.products).2 = 0
      · simp only [if_pos hc] at h
        exact Except.noConfusion h
      · simp only [if_neg hc, Except.ok.injEq, Prod.mk.injEq] at h
        rw [← h.1]

/-- The one-product store after the C10 witness update. -/
def updatedOneProductState : StoreState :=
  ⟨[{ sampleProduct with name := "B", updated_at := 9 }], [], []⟩

/-- C10 witness: concrete update and delete runs leave the (empty) orders
collection of the one-product store intact. -/
theorem C10_orders_unchanged_witness :
    updatedOneProductState.orders = oneProductState.orders ∧
    (⟨[], [], []⟩ : StoreState).orders = oneProductState.orders := by
  constructor
  · exact (C10_orders_unchanged oneProductState "p1" { name := some "B" } 9 goodAuth).1
      updatedOneProductState { sampleProduct with name := "B", updated_at := 9 } rfl
  · exact (C10_orders_unchanged oneProductState "p1" { name := some "B" } 9 goodAuth).2
      ⟨[], [], []⟩ "Product deleted successfully" rfl

/-- C9: `initialize_sample_data` is idempotent: when any product exists the
existence check short-circuits (state unchanged, "already exists" message);
on an empty catalog it inserts the fixed seed set of 6 products, and a second
consecutive call leaves the product count at 6. -/
theorem C9_initialize_sample_data (st : StoreState) (g g2 : Nat → String)
    (now now2 : Nat) :
    (st.products ≠ [] →
      initialize_sample_data st g now = (st, "Sample data already exists")) ∧
    (st.products = [] →
      (initialize_sample_data st g now).2 = "Inserted 6 sample products" ∧
      (initialize_sample_data st g now).1.products.length = 6 ∧
      (initialize_sample_data (initialize_sample_data st g now).1 g2
        now2).1.products.length = 6) := by
  obtain ⟨ps, os, gs⟩ := st
  constructor
  · intro h
    cases ps with
    | nil => exact absurd rfl h
    | cons x xs => rfl
  · intro h
    cases ps with
    | nil => exact ⟨by with_unfolding_all rfl, rfl, rfl⟩
    | cons x xs => exact List.noConfusion h

/-- C9 witness: two consecutive runs on the empty store leave exactly the 6
seed products. -/
theorem C9_initialize_sample_data_witness :
    (initialize_sample_data ⟨[], [], []⟩ (fun i => toString i) 7).2 =
      "Inserted 6 sample products" ∧
    (initialize_sample_data ⟨[], [], []⟩ (fun i => toString i) 7).1.products.length = 6 ∧
    (initialize_sample_data
      (initialize_sample_data ⟨[], [], []⟩ (fun i => toString i) 7).1
      (fun i => toString i) 8).1.products.length = 6 :=
  (C9_initialize_sample_data ⟨[], [], []⟩ (fun i => toString i) (fun i => toString i)
    7 8).2 rfl

/-- C2 is refuted on the favorite toggle: toggling really mutates the product
(`isFavorite` flips from `false` to `true`) yet `updated_at` stays at its old
value 5, so `updated_at` does not strictly advance on this mutation. -/
theorem C2_counterexample :
    (toggle_favorite oneProductState "p1").map
      (fun r => (r.1.products.map Product.isFavorite,
                 r.1.products.map Product.updated_at)) = .ok ([true], [5]) ∧
    oneProductState.products.map Product.isFavorite = [false] ∧
    oneProductState.products.map Product.updated_at = [5] := ⟨rfl, rfl, rfl⟩

/-- C2 amended: on an existing product an admin partial update keeps `id` and
sets `updated_at` to the current clock, while a favorite toggle keeps `id` but
leaves `updated_at` exactly as it was (it does not advance). -/
theorem C2_mutations (st : StoreState) (pid : String) (u : ProductUpdate) (now : Nat) :
    (∀ p, st.products.find? (fun q => q.id == pid) = some p →
      update_product st pid u now goodAuth =
        .ok ({ st with
                products := updateFirst (fun q => q.id == pid)
                  (applyProductUpdate u now) st.products },
             applyProductUpdate u now p) ∧
      (applyProductUpdate u now p).id = p.id ∧
      (applyProductUpdate u now p).updated_at = now) ∧
    (∀ p, st.products.find? (fun q => q.id == pid) = some p →
      toggle_favorite st pid =
        .ok ({ st with
                products := updateFirst (fun q => q.id == pid)
                  (fun q => { q with isFavorite := !p.isFavorite }) st.products },
             !p.isFavorite) ∧
      (updateFirst (fun q => q.id == pid)
          (fun q => { q with isFavorite := !p.isFavorite }) st.products).find?
          (fun q => q.id == pid) = some { p with isFavorite := !p.isFavorite } ∧
      ({ p with isFavorite := !p.isFavorite } : Product).id = p.id ∧
      ({ p with isFavorite := !p.isFavorite } : Product).updated_at = p.updated_at) := by
  constructor
  · intro p h
    have hred : update_product st pid u now goodAuth =
        match st.products.find? (fun p => p.id == pid) with
        | none => .error ⟨404, "Product not found"⟩
        | some _ =>
          match (updateFirst (fun q => q.id == pid) (applyProductUpdate u now)
              st.products).find? (fun q => q.id == pid) with
          | none => .error ⟨500, "Internal Server Error"⟩
          | some updated_product =>
            .ok ({ st with
                    products := updateFirst (fun q => q.id == pid)
                      (applyProductUpdate u now) st.products }, updated_product) := rfl
    refine ⟨?_, rfl, rfl⟩
    rw [hred, h, find?_updateFirst (fun q => q.id == pid) (applyProductUpdate u now)
      st.products (fun a ha => ha), h]
    rfl
  · intro p h
    have hredT : toggle_favorite st pid =
        match st.products.find? (fun q => q.id == pid) with
        | none => .error ⟨404, "Product not found"⟩
        | some product =>
          .ok ({ st with
                  products := updateFirst (fun q => q.id == pid)
                    (fun q => { q with isFavorite := !product.isFavorite }) st.products },
               !product.isFavorite) := rfl
    refine ⟨by rw [hredT, h], ?_, rfl, rfl⟩
    rw [find?_updateFirst (fun q => q.id == pid)
      (fun q => { q with isFavorite := !p.isFavorite }) st.products (fun a ha => ha), h]
    rfl

/-- C2 amended witness: a concrete update run stamps the clock into
`updated_at`, and a concrete toggle run leaves `updated_at` at 5. -/
theorem C2_mutations_witness :
    update_product oneProductState "p1" { name := some "B" } 9 goodAuth =
      .ok (⟨[{ sampleProduct with name := "B", updated_at := 9 }], [], []⟩,
        { sampleProduct with name := "B", updated_at := 9 }) ∧
    toggle_favorite oneProductState "p1" =
      .ok (⟨[{ sampleProduct with isFavorite := true }], [], []⟩, true) := by
  constructor
  · exact ((C2_mutations oneProductState "p1" { name := some "B" } 9).1
      sampleProduct rfl).1
  · exact ((C2_mutations oneProductState "p1" { name := some "B" } 9).2
      sampleProduct rfl).1

/-- An order-create request whose cart is empty. -/
def emptyCartInput : OrderCreate :=
  { customer_name := "N", phone := "555", cart_items := [], total := 0 }

/-- C6 is refuted: `create_order` accepts a request with an empty `cart_items`
sequence and persists an order whose `cart_items` is empty. -/
theorem C6_counterexample :
    (create_order ⟨[], [], []⟩ emptyCartInput "o9" 0).1.orders.map Order.cart_items =
      [[]] ∧
    (create_order ⟨[], [], []⟩ emptyCartInput "o9" 0).2.cart_items = [] := ⟨rfl, rfl⟩

/-- C6 amended: `create_order` performs no validation of `cart_items`: the
persisted order carries exactly the supplied list (empty lists included),
status defaults to PENDING, and the order is appended to the collection. -/
theorem C6_create_order_no_validation (st : StoreState) (inp : OrderCreate)
    (gid : String) (now : Nat) :
    (create_order st inp gid now).2.cart_items = inp.cart_items ∧
    (create_order st inp gid now).1.orders = st.orders ++ [(create_order st inp gid now).2] ∧
    (create_order st inp gid now).2.status = OrderStatus.PENDING ∧
    (create_order st inp gid now).2.total = inp.total := ⟨rfl, rfl, rfl, rfl⟩

/-- Reduction of the stats route under the correct admin credential. -/
theorem get_admin_stats_goodAuth (st : StoreState) (now : Nat) :
    get_admin_stats st now goodAuth = .ok
      { total_products := st.products.length
        total_orders := st.orders.length
        total_sales := ((st.orders.take 1000).map Order.total).sum
        pending_orders :=
          (st.orders.filter (fun o => o.status == OrderStatus.PENDING)).length
        today_orders := (st.orders.filter
          (inTodayWindow (startOfDay now) (startOfDay now + secondsPerDay))).length
        today_sales := (((st.orders.filter
          (inTodayWindow (startOfDay now) (startOfDay now + secondsPerDay))).take
            1000).map Order.total).sum } := rfl

/-- An order of total 1 created at second 10, used to overflow the 1000-row
fetch of the stats route. -/
def unitOrder : Order :=
  { id := "u", customer_name := "N", phone := "5", cart_items := [], total := 1,
    status := OrderStatus.READY, created_at := 10, updated_at := 10 }

/-- 1001 copies of `unitOrder`. -/
def manyOrdersState : StoreState := ⟨[], List.replicate 1001 unitOrder, []⟩

/-- C7 is refuted on a store of 1001 orders: `total_orders` counts all 1001,
but `total_sales` sums only the first 1000 fetched rows (1000 ≠ 1001, the sum
of `total` over all orders). -/
theorem C7_counterexample :
    (get_admin_stats manyOrdersState 0 goodAuth).map AdminStats.total_sales =
      .ok 1000 ∧
    (manyOrdersState.orders.map Order.total).sum = 1001 ∧
    (get_admin_stats manyOrdersState 0 goodAuth).map AdminStats.total_orders =
      .ok 1001 := by
  refine ⟨?_, ?_, ?_⟩
  · rw [get_admin_stats_goodAuth]
    show Except.ok (((manyOrdersState.orders.take 1000).map Order.total).sum) = _
    rw [show manyOrdersState.orders = List.replicate 1001 unitOrder from rfl,
      List.take_replicate, List.map_replicate, List.sum_replicate]
    norm_num [unitOrder]
  · rw [show manyOrdersState.orders = List.replicate 1001 unitOrder from rfl,
      List.map_replicate, List.sum_replicate]
    norm_num [unitOrder]
  · rw [get_admin_stats_goodAuth]
    show Except.ok manyOrdersState.orders.length = _
    rw [show manyOrdersState.orders = List.replicate 1001 unitOrder from rfl,
      List.length_replicate]

/-- C7 amended: `total_orders` and `pending_orders` are exact counts for every
store state; `total_sales` sums `total` over the first 1000 fetched orders,
which equals the sum over all orders whenever the store holds at most 1000. -/
theorem C7_stats (st : StoreState) (now : Nat) :
    (get_admin_stats st now goodAuth).map AdminStats.total_orders =
      .ok st.orders.length ∧
    (get_admin_stats st now goodAuth).map AdminStats.pending_orders =
      .ok (st.orders.filter (fun o => o.status == OrderStatus.PENDING)).length ∧
    (get_admin_stats st now goodAuth).map AdminStats.total_sales =
      .ok (((st.orders.take 1000).map Order.total).sum) ∧
    (st.orders.length ≤ 1000 →
      (get_admin_stats st now goodAuth).map AdminStats.total_sales =
        .ok ((st.orders.map Order.total).sum)) := by
  refine ⟨rfl, rfl, rfl, fun h => ?_⟩
  rw [get_admin_stats_goodAuth]
  show Except.ok (((st.orders.take 1000).map Order.total).sum) = _
  rw [List.take_of_length_le h]

/-- C7 witness on a 2-order store of mixed statuses. -/
theorem C7_stats_witness :
    (⟨[], [sampleOrder, unitOrder], []⟩ : StoreState).orders.length ≤ 1000 ∧
    (get_admin_stats ⟨[], [sampleOrder, unitOrder], []⟩ 0 goodAuth).map
      AdminStats.total_sales =
      .ok (((⟨[], [sampleOrder, unitOrder], []⟩ : StoreState).orders.map
        Order.total).sum) :=
  ⟨by decide, (C7_stats ⟨[], [sampleOrder, unitOrder], []⟩ 0).2.2.2 (by decide)⟩

/-- A pending order of total 2 created at second 10 (inside the day window
starting at 0). -/
def todayOrder : Order :=
  { id := "t", customer_name := "N", phone := "5", cart_items := [], total := 2,
    status := OrderStatus.PENDING, created_at := 10, updated_at := 10 }

/-- 1001 copies of `todayOrder`, all inside the current day window. -/
def manyTodayState : StoreState := ⟨[], List.replicate 1001 todayOrder, []⟩

/-- C8 is refuted on a store of 1001 same-day orders: `today_orders` counts
all 1001 orders of the window, but `today_sales` misses the total of the
1001st in-window order (2000 ≠ 2002, the sum over the window). -/
theorem C8_counterexample :
    (get_admin_stats manyTodayState 0 goodAuth).map AdminStats.today_sales =
      .ok 2000 ∧
    ((manyTodayState.orders.filter
      (inTodayWindow (startOfDay 0) (startOfDay 0 + secondsPerDay))).map
        Order.total).sum = 2002 ∧
    (get_admin_stats manyTodayState 0 goodAuth).map AdminStats.today_orders =
      .ok 1001 := by
  have hwin : inTodayWindow (startOfDay 0) (startOfDay 0 + secondsPerDay) todayOrder =
      true := by decide
  have hfilter : manyTodayState.orders.filter
      (inTodayWindow (startOfDay 0) (startOfDay 0 + secondsPerDay)) =
      List.replicate 1001 todayOrder := by
    rw [show manyTodayState.orders = List.replicate 1001 todayOrder from rfl,
      List.filter_replicate, hwin]
    simp
  refine ⟨?_, ?_, ?_⟩
  · rw [get_admin_stats_goodAuth]
    show Except.ok (((manyTodayState.orders.filter
      (inTodayWindow (startOfDay 0) (startOfDay 0 + secondsPerDay))).take
        1000).map Order.total).sum = _
    rw [hfilter, List.take_replicate, List.map_replicate, List.sum_replicate]
    norm_num [todayOrder]
  · rw [hfilter, List.map_replicate, List.sum_replicate]
    norm_num [todayOrder]
  · rw [get_admin_stats_goodAuth]
    show Except.ok (manyTodayState.orders.filter
      (inTodayWindow (startOfDay 0) (startOfDay 0 + secondsPerDay))).length = _
    rw [hfilter, List.length_replicate]

/-- C8 amended: an order is counted toward `today_orders` exactly when its
`created_at` lies in the half-open window [start-of-local-day,
start-of-next-local-day); its total is counted toward `today_sales` under the
same condition provided at most 1000 orders lie in the window (the sum is
over the first 1000 fetched in-window orders). -/
theorem C8_today_window (st : StoreState) (now : Nat) :
    (∀ o : Order,
      inTodayWindow (startOfDay now) (startOfDay now + secondsPerDay) o = true ↔
        (startOfDay now ≤ o.created_at ∧
          o.created_at < startOfDay now + secondsPerDay)) ∧
    (get_admin_stats st now goodAuth).map AdminStats.today_orders =
      .ok (st.orders.filter
        (inTodayWindow (startOfDay now) (startOfDay now + secondsPerDay))).length ∧
    ((st.orders.filter
        (inTodayWindow (startOfDay now) (startOfDay now + secondsPerDay))).length ≤
          1000 →
      (get_admin_stats st now goodAuth).map AdminStats.today_sales =
        .ok (((st.orders.filter
          (inTodayWindow (startOfDay now) (startOfDay now + secondsPerDay))).map
            Order.total).sum)) := by
  refine ⟨fun o => ?_, rfl, fun h => ?_⟩
  · simp [inTodayWindow]
  · rw [get_admin_stats_goodAuth]
    show Except.ok (((st.orders.filter
      (inTodayWindow (startOfDay now) (startOfDay now + secondsPerDay))).take
        1000).map Order.total).sum = _
    rw [List.take_of_length_le h]

/-- C8 witness: on a 2-order store where one order lies in the window
starting at 0 and the other (created at 100000) does not. -/
theorem C8_today_window_witness :
    ((⟨[], [todayOrder], []⟩ : StoreState).orders.filter
      (inTodayWindow (startOfDay 0) (startOfDay 0 + secondsPerDay))).length ≤ 1000 ∧
    (get_admin_stats ⟨[], [todayOrder], []⟩ 0 goodAuth).map AdminStats.today_sales =
      .ok ((((⟨[], [todayOrder], []⟩ : StoreState).orders.filter
        (inTodayWindow (startOfDay 0) (startOfDay 0 + secondsPerDay))).map
          Order.total).sum) ∧
    (inTodayWindow (startOfDay 0) (startOfDay 0 + secondsPerDay) todayOrder = true ↔
      (startOfDay 0 ≤ todayOrder.created_at ∧
        todayOrder.created_at < startOfDay 0 + secondsPerDay)) :=
  ⟨by decide, (C8_today_window ⟨[], [todayOrder], []⟩ 0).2.2 (by decide),
    (C8_today_window ⟨[], [todayOrder], []⟩ 0).1 todayOrder⟩

/-! ## Authorization guard facts -/

/-- A `Bearer`-scheme header parses into scheme and credentials. -/
theorem partitionSpace_bearer (t : String) :
    partitionSpace ("Bearer " ++ t) = ("Bearer", t) := rfl

/-- A `Bearer` header never looks empty to the scheme check. -/
theorem bearer_header_ne_empty (t : String) : ("Bearer " ++ t) ≠ "" := fun h =>
  List.noConfusion (congrArg String.data h)

/-- With a well-formed non-empty `Bearer` credential the security scheme
passes the credential through to `verify_admin_token`. -/
theorem adminGuard_some_bearer (t : String) (ht : t ≠ "") :
    adminGuard (some ("Bearer " ++ t)) = verify_admin_token t := by
  have hc1 : ¬("Bearer " ++ t = "" ∨ ("Bearer" : String) = "" ∨ t = "") := by
    push_neg
    exact ⟨bearer_header_ne_empty t, by decide, ht⟩
  have hc2 : ¬(lowerString "Bearer" ≠ "bearer") := by decide
  unfold adminGuard httpBearerCall
  simp only [partitionSpace_bearer]
  rw [if_neg hc1, if_neg hc2]
  rfl

/-- A wrong non-empty bearer credential is rejected with 401. -/
theorem adminGuard_mismatch (t : String) (h1 : t ≠ "") (h2 : t ≠ ADMIN_TOKEN) :
    adminGuard (some ("Bearer " ++ t)) = .error ⟨401, "Invalid admin token"⟩ := by
  rw [adminGuard_some_bearer t h1]
  unfold verify_admin_token
  rw [if_pos h2]

/-- A missing `Authorization` header is rejected with 403 by the scheme. -/
theorem adminGuard_missing : adminGuard none = .error ⟨403, "Not authenticated"⟩ := rfl

/-- A product-create request used by C1. -/
def sampleCreateInput : ProductCreate :=
  { name := "Test Pizza", price := 450, image := "x", category := "pizza" }

/-- C1 is refuted on the missing-header half: a request with no
`Authorization` header to the admin-guarded product create is rejected with
status 403 ("Not authenticated", raised by the security scheme), not with the
claimed 401. -/
theorem C1_counterexample :
    create_product ⟨[], [], []⟩ sampleCreateInput "pid" 0 none =
      .error ⟨403, "Not authenticated"⟩ ∧ (403 : Nat) ≠ 401 := ⟨rfl, by decide⟩

/-- C1 amended: every admin-guarded operation (product create/update/delete,
order status update, gallery upload/delete, stats read) rejects a mismatching
non-empty bearer token with 401 and a missing `Authorization` header with 403;
the unauthenticated operations consult no credential: the fallible ones
(product get, order get, favorite toggle) can only fail with 404, order create
always appends the new order, and initialize-data always completes with one of
its two success messages.  (The read-only list operations `get_products`,
`get_products_by_category`, `get_orders`, `get_orders_by_status` and
`get_gallery_images` are total functions of the store state alone, so they
take no credential by construction.) -/
theorem C1_admin_guard (st : StoreState) (t : String) (pc : ProductCreate)
    (pid : String) (u : ProductUpdate) (oid : String) (s : OrderStatus)
    (iid ct fn gu gi gid : String) (now : Nat) (oc : OrderCreate)
    (g : Nat → String) (etf egp ego : HTTPError)
    (ht1 : t ≠ "") (ht2 : t ≠ ADMIN_TOKEN) :
    (create_product st pc gid now (some ("Bearer " ++ t)) =
        .error ⟨401, "Invalid admin token"⟩ ∧
      update_product st pid u now (some ("Bearer " ++ t)) =
        .error ⟨401, "Invalid admin token"⟩ ∧
      delete_product st pid (some ("Bearer " ++ t)) =
        .error ⟨401, "Invalid admin token"⟩ ∧
      update_order_status st oid s now (some ("Bearer " ++ t)) =
        .error ⟨401, "Invalid admin token"⟩ ∧
      upload_image st ct fn gu gi now (some ("Bearer " ++ t)) =
        .error ⟨401, "Invalid admin token"⟩ ∧
      delete_gallery_image st iid (some ("Bearer " ++ t)) =
        .error ⟨401, "Invalid admin token"⟩ ∧
      get_admin_stats st now (some ("Bearer " ++ t)) =
        .error ⟨401, "Invalid admin token"⟩) ∧
    (create_product st pc gid now none = .error ⟨403, "Not authenticated"⟩ ∧
      update_product st pid u now none = .error ⟨403, "Not authenticated"⟩ ∧
      delete_product st pid none = .error ⟨403, "Not authenticated"⟩ ∧
      update_order_status st oid s now none = .error ⟨403, "Not authenticated"⟩ ∧
      upload_image st ct fn gu gi now none = .error ⟨403, "Not authenticated"⟩ ∧
      delete_gallery_image st iid none = .error ⟨403, "Not authenticated"⟩ ∧
      get_admin_stats st now none = .error ⟨403, "Not authenticated"⟩) ∧
    ((toggle_favorite st pid = .error etf → etf.status_code = 404) ∧
      (get_product st pid = .error egp → egp.status_code = 404) ∧
      (get_order st oid = .error ego → ego.status_code = 404) ∧
      (create_order st oc gid now).1.orders =
        st.orders ++ [(create_order st oc gid now).2] ∧
      ((initialize_sample_data st g now).2 = "Sample data already exists" ∨
        (initialize_sample_data st g now).2 = "Inserted 6 sample products")) := by
  have hm := adminGuard_mismatch t ht1 ht2
  refine ⟨⟨?_, ?_, ?_, ?_, ?_, ?_, ?_⟩, ⟨?_, ?_, ?_, ?_, ?_, ?_, ?_⟩,
    ⟨?_, ?_, ?_, rfl, ?_⟩⟩
  · unfold create_product
    rw [hm, bindGuard_error]
  · unfold update_product
    rw [hm, bindGuard_error]
  · unfold delete_product
    rw [hm, bindGuard_error]
  · unfold update_order_status
    rw [hm, bindGuard_error]
  · unfold upload_image
    rw [hm, bindGuard_error]
  · unfold delete_gallery_image
    rw [hm, bindGuard_error]
  · unfold get_admin_stats
    rw [hm, bindGuard_error]
  · unfold create_product
    rw [adminGuard_missing, bindGuard_error]
  · unfold update_product
    rw [adminGuard_missing, bindGuard_error]
  · unfold delete_product
    rw [adminGuard_missing, bindGuard_error]
  · unfold update_order_status
    rw [adminGuard_missing, bindGuard_error]
  · unfold upload_image
    rw [adminGuard_missing, bindGuard_error]
  · unfold delete_gallery_image
    rw [adminGuard_missing, bindGuard_error]
  · unfold get_admin_stats
    rw [adminGuard_missing, bindGuard_error]
  · intro h
    unfold toggle_favorite at h
    rcases hf : st.products.find? (fun p => p.id == pid) with _ | p
    · simp only [hf, Except.error.injEq] at h
      rw [← h]
    · simp only [hf] at h
      exact Except.noConfusion h
  · intro h
    unfold get_product at h
    rcases hf : st.products.find? (fun p => p.id == pid) with _ | p
    · simp only [hf, Except.error.injEq] at h
      rw [← h]
    · simp only [hf] at h
      exact Except.noConfusion h
  · intro h
    unfold get_order at h
    rcases hf : st.orders.find? (fun o => o.id == oid) with _ | o
    · simp only [hf, Except.error.injEq] at h
      rw [← h]
    · simp only [hf] at h
      exact Except.noConfusion h
  · rcases hp : st.products with _ | ⟨x, xs⟩
    · right
      unfold initialize_sample_data
      rw [hp]
      with_unfolding_all rfl
    · left
      unfold initialize_sample_data
      rw [hp]
      rfl

/-- C1 amended witness: with the concrete wrong token "wrong" the product
create and stats read reject with 401; with a missing header they reject with
403; a concrete order create on the empty store proceeds and appends. -/
theorem C1_admin_guard_witness :
    ("wrong" : String) ≠ "" ∧ ("wrong" : String) ≠ ADMIN_TOKEN ∧
    create_product ⟨[], [], []⟩ sampleCreateInput "pid" 0
      (some ("Bearer " ++ "wrong")) = .error ⟨401, "Invalid admin token"⟩ ∧
    get_admin_stats ⟨[], [], []⟩ 0 (some ("Bearer " ++ "wrong")) =
      .error ⟨401, "Invalid admin token"⟩ ∧
    update_product ⟨[], [], []⟩ "p1" { name := some "B" } 0 none =
      .error ⟨403, "Not authenticated"⟩ ∧
    (create_order ⟨[], [], []⟩ emptyCartInput "pid" 0).1.orders =
      [] ++ [(create_order ⟨[], [], []⟩ emptyCartInput "pid" 0).2] := by
  have h := C1_admin_guard ⟨[], [], []⟩ "wrong" sampleCreateInput "p1"
    { name := some "B" } "o1" OrderStatus.READY "i1" "image/png" "f.png" "u1" "g1"
    "pid" 0 emptyCartInput (fun i => toString i) ⟨404, "Product not found"⟩
    ⟨404, "Product not found"⟩ ⟨404, "Order not found"⟩ (by decide) (by decide)
  exact ⟨by decide, by decide, h.1.1, h.1.2.2.2.2.2.2, h.2.1.2.1, h.2.2.2.2.2.1⟩
